import Mathlib

/-!
Verification of the agent turn loop of `ai.py`: the tool dispatcher
(`process_tool_calls`), the per-turn provider-call loop in `main`, the
history compressor (`compress_chat_history`) and the `/compress` command
handler, token-usage recording, and the context-fullness percentage.
The definitions below are a shallow embedding of that source file.
-/

namespace Agent

/-- A tool-call request emitted by the provider: a correlation `id`, the tool
`name`, and the argument mapping (modelled as an association list). -/
structure ToolCallRequest where
  id : String
  name : String
  args : List (String × String)
  deriving DecidableEq, Repr

/-- The token-usage metadata dictionary attached to a provider response.
Each field is `none` when the corresponding key is absent, mirroring
`usage.get(key)` returning `None` in `ai.py` lines 535-543. -/
structure Usage where
  prompt_tokens : Option Nat
  input_tokens : Option Nat
  completion_tokens : Option Nat
  output_tokens : Option Nat
  generated_tokens : Option Nat
  total_tokens : Option Nat
  deriving DecidableEq, Repr

/-- An assistant response object as returned by `chain.invoke`: streamed
`content`, the list of `tool_calls`, and optional `usage_metadata`. -/
structure AssistantResponse where
  content : String
  tool_calls : List ToolCallRequest
  usage_metadata : Option Usage
  deriving DecidableEq, Repr

/-- A message of the conversation history: `HumanMessage`, the appended
assistant response object, or a `ToolMessage` (content, name, tool_call_id). -/
inductive Message
  | user (content : String)
  | assistant (response : AssistantResponse)
  | toolMsg (content : String) (name : String) (tool_call_id : String)
  deriving DecidableEq, Repr

/-- A tool capability: its registered `name` and its `invoke` entry point,
which either returns output or fails (`Except.error` models a raised
exception escaping `func.invoke`). -/
structure ToolCapability where
  name : String
  invoke : List (String × String) → Except String String

/-- Lookup in `tool_map = {t.name: t for t in tools}` (`ai.py` line 334):
a Python dict comprehension lets a later duplicate key override an earlier
one, hence the left fold. `none` models `tool_map.get` returning `None`. -/
def toolMapGet (tools : List ToolCapability) (n : String) : Option ToolCapability :=
  tools.foldl (fun acc t => if t.name = n then some t else acc) none

/-- The content of the result message for an unregistered tool name
(`ai.py` line 361). -/
def unknownToolMessage (n : String) : String :=
  "Неизвестный инструмент: " ++ n

/-- The content of the result message when a capability raises
(`ai.py` line 353; the `escape` rendering of the exception text is the
opaque string `e`). -/
def toolErrorMessage (n e : String) : String :=
  "Ошибка при вызове инструмента \x27" ++ n ++ "\x27: " ++ e

/-- The dispatcher's per-request outcome: the spec's `ToolResult`. The `ok`
flag records which branch of `process_tool_calls` produced it (`true`
exactly on the successful-invoke branch, `ai.py` lines 339-359). -/
structure ToolResult where
  content : String
  name : String
  tool_call_id : String
  ok : Bool
  deriving DecidableEq, Repr

/-- One loop body of `process_tool_calls` (`ai.py` lines 336-367): look the
name up in the registry; invoke on success, catching any raised error;
produce the unknown-tool result when the lookup fails. -/
def dispatchToolCall (tools : List ToolCapability) (tc : ToolCallRequest) : ToolResult :=
  match toolMapGet tools tc.name with
  | some func =>
    match func.invoke tc.args with
    | Except.ok result =>
        { content := result, name := tc.name, tool_call_id := tc.id, ok := true }
    | Except.error e =>
        { content := toolErrorMessage tc.name e, name := tc.name,
          tool_call_id := tc.id, ok := false }
  | none =>
      { content := unknownToolMessage tc.name, name := tc.name,
        tool_call_id := tc.id, ok := false }

/-- The dispatcher `process_tool_calls` (`ai.py` lines 331-369): each request
appends exactly one result message, in request order. -/
def process_tool_calls (tool_calls : List ToolCallRequest)
    (tools : List ToolCapability) : List ToolResult :=
  tool_calls.map (dispatchToolCall tools)

/-- Conversion of a dispatcher result into the `ToolMessage` appended to the
history (`ai.py` lines 347-351, 355-359, 363-367). -/
def toolResultToMessage (r : ToolResult) : Message :=
  Message.toolMsg r.content r.name r.tool_call_id

/-- Python truthy-or on numbers: `a or b` yields `b` when `a` is `0` (and
when the looked-up key was missing, which `Option.getD 0` has already
turned into `0`). -/
def orNat (a b : Nat) : Nat := if a = 0 then b else a

/-- The prompt-token extraction of `ai.py` line 537:
`usage.get("prompt_tokens") or usage.get("input_tokens", 0)`. -/
def usagePrompt (u : Usage) : Nat :=
  orNat (u.prompt_tokens.getD 0) (u.input_tokens.getD 0)

/-- The completion-token extraction of `ai.py` line 538: the truthy-or chain
over `completion_tokens`, `output_tokens`, `generated_tokens`. -/
def usageCompletion (u : Usage) : Nat :=
  orNat (u.completion_tokens.getD 0)
    (orNat (u.output_tokens.getD 0) (u.generated_tokens.getD 0))

/-- The total-token computation of `ai.py` lines 539-543:
`total = usage.get("total_tokens", 0)`, then re-derived as
`prompt + completion` when it is still `0` and some count is positive. -/
def usageTotal (u : Usage) : Nat :=
  if u.total_tokens.getD 0 = 0 ∧ (0 < usagePrompt u ∨ 0 < usageCompletion u)
  then usagePrompt u + usageCompletion u
  else u.total_tokens.getD 0

/-- The Budget Tracker record derived from one usage dictionary: the
`(prompt, completion, total)` triple printed at `ai.py` line 547. -/
def recordUsage (u : Usage) : Nat × Nat × Nat :=
  (usagePrompt u, usageCompletion u, usageTotal u)

/-- Outcome of one provider call `chain.invoke({"messages": history})`:
either a raised exception (caught at `ai.py` line 527) or a response. -/
inductive ProviderOutcome
  | failure (err : String)
  | success (response : AssistantResponse)

/-- How a turn ended: normal completion (`break` at `ai.py` line 559),
provider failure (`break` at line 530), or the exhausted `for`-`else`
iteration-limit notice (line 561). -/
inductive TurnStatus
  | complete
  | aborted
  | iterLimit
  deriving DecidableEq, Repr

/-- Result of running one turn: the final history, the final value of
`last_prompt_tokens`, how the turn ended, and how many provider calls the
loop performed. -/
structure TurnResult where
  history : List Message
  lastPromptTokens : Nat
  status : TurnStatus
  providerCalls : Nat

/-- The per-turn iteration loop of `main` (`ai.py` lines 519-561), with the
remaining range of `for i in range(max_iterations)` as fuel. On provider
failure the loop breaks with nothing appended; on success
`last_prompt_tokens` is set from `usage_metadata` (or reset to `0` when it
is absent, line 549); a response with tool calls appends the response and
the dispatcher's messages and loops; a response without tool calls appends
the response and completes the turn. -/
def turnLoop (provider : List Message → ProviderOutcome)
    (tools : List ToolCapability) :
    Nat → List Message → Nat → TurnResult
  | 0, history, tokens =>
      ⟨history, tokens, TurnStatus.iterLimit, 0⟩
  | fuel + 1, history, tokens =>
    match provider history with
    | ProviderOutcome.failure _ =>
        ⟨history, tokens, TurnStatus.aborted, 1⟩
    | ProviderOutcome.success response =>
      let tokens2 := match response.usage_metadata with
        | some u => usagePrompt u
        | none => 0
      if response.tool_calls.isEmpty then
        ⟨history ++ [Message.assistant response], tokens2, TurnStatus.complete, 1⟩
      else
        let tool_messages := process_tool_calls response.tool_calls tools
        let history2 := (history ++ [Message.assistant response])
          ++ tool_messages.map toolResultToMessage
        let rest := turnLoop provider tools fuel history2 tokens2
        ⟨rest.history, rest.lastPromptTokens, rest.status, rest.providerCalls + 1⟩

/-- The per-turn iteration cap, `max_iterations = 50` (`ai.py` line 518). -/
def max_iterations : Nat := 50

/-- One full turn of `main`: append `HumanMessage(user_input)` to the
history (`ai.py` line 516), then run the iteration loop. -/
def runTurn (provider : List Message → ProviderOutcome)
    (tools : List ToolCapability) (history : List Message)
    (user_input : String) (tokens : Nat) : TurnResult :=
  turnLoop provider tools max_iterations (history ++ [Message.user user_input]) tokens

/-- The fixed compression instruction appended to the history by the
compression prompt template (`ai.py` lines 423-429). -/
def compression_prompt_text : String :=
  "Summarize our conversation up to this point. The summary should be a concise yet comprehensive overview of all key topics, questions, answers, and important details discussed. This summary will replace the current chat history to conserve tokens, so it must capture everything essential to understand the context and continue our conversation effectively as if no information was lost."

/-- The single summary message installed by successful compression
(`ai.py` line 440). -/
def summaryMessage (summary : String) : Message :=
  Message.user ("This is a summary of the previous conversation:\n" ++ summary)

/-- The history compressor `compress_chat_history` (`ai.py` lines 410-444):
the compression chain sends the history plus the fixed instruction to the
provider; on success the whole history is replaced by one summary message,
and on any provider error the original history is returned (line 444). -/
def compress_chat_history (chat_history : List Message)
    (provider : List Message → Except String String) : List Message :=
  match provider (chat_history ++ [Message.user compression_prompt_text]) with
  | Except.ok summary => [summaryMessage summary]
  | Except.error _ => chat_history

/-- The `/compress` command handler in `main` (`ai.py` lines 497-503): with
more than one message it compresses and unconditionally resets
`last_prompt_tokens` to `0`; otherwise it only prints a notice, leaving
history and token count untouched. -/
def handleCompressCommand (chat_history : List Message)
    (last_prompt_tokens : Nat)
    (provider : List Message → Except String String) : List Message × Nat :=
  if 1 < chat_history.length then
    (compress_chat_history chat_history provider, 0)
  else
    (chat_history, last_prompt_tokens)

/-- The model context size, `MAX_CONTEXT_TOKENS = 128000` (`ai.py` line 63). -/
def MAX_CONTEXT_TOKENS : Nat := 128000

/-- The context-fullness percentage of `ai.py` line 488:
`min(100.0, (last_prompt_tokens / max_context) * 100)`, over exact
rationals. -/
def contextPercent (last_prompt_tokens : Nat) (max_context : Nat) : ℚ :=
  min 100 (((last_prompt_tokens : ℚ) / (max_context : ℚ)) * 100)

/-- The Budget Tracker record as claim C8 words it: each of the three
reported fields defaults to `0` when missing, and the total is derived as
`prompt + completion` exactly when the provider omits a total (a reported
total, even `0`, is kept as-is). -/
def recordUsageClaimC8 (u : Usage) : Nat × Nat × Nat :=
  let p := u.prompt_tokens.getD 0
  let c := u.completion_tokens.getD 0
  (p, c, match u.total_tokens with
    | none => p + c
    | some t => t)

/-- First truthy value of a list of optionally-present counts, else `0`:
the spec-side reading of a Python truthy-or chain over `usage.get` calls. -/
def firstTruthy : List (Option Nat) → Nat
  | [] => 0
  | a :: rest =>
    match a with
    | some n => if n = 0 then firstTruthy rest else n
    | none => firstTruthy rest

/-- The Budget Tracker record as amended for claim C8: `prompt` and
`completion` are the first truthy value among their provider-specific
fallback keys, and the total is derived as `prompt + completion` whenever
the reported total is missing or zero, a nonzero reported total being kept
as-is. -/
def recordUsageAmended (u : Usage) : Nat × Nat × Nat :=
  (firstTruthy [u.prompt_tokens, u.input_tokens],
   firstTruthy [u.completion_tokens, u.output_tokens, u.generated_tokens],
   if u.total_tokens.getD 0 = 0
   then firstTruthy [u.prompt_tokens, u.input_tokens]
     + firstTruthy [u.completion_tokens, u.output_tokens, u.generated_tokens]
   else u.total_tokens.getD 0)

/-!
Theorems: the claims C1-C10, with their helper lemmas.
-/

/-- Helper for C1: every branch of the dispatcher copies the request id into
the result's `tool_call_id` field. -/
theorem dispatchToolCall_id (tools : List ToolCapability) (tc : ToolCallRequest) :
    (dispatchToolCall tools tc).tool_call_id = tc.id := by
  unfold dispatchToolCall
  rcases h : toolMapGet tools tc.name with _ | func
  · rfl
  · rcases h2 : func.invoke tc.args with e | r <;> simp [h2]

/-- C1: for every ordered list of tool-call requests, `process_tool_calls`
returns exactly as many tool results, and their `tool_call_id` fields equal
the requests' ids in the same order. -/
theorem process_tool_calls_ids (tool_calls : List ToolCallRequest)
    (tools : List ToolCapability) :
    (process_tool_calls tool_calls tools).length = tool_calls.length ∧
    (process_tool_calls tool_calls tools).map ToolResult.tool_call_id
      = tool_calls.map ToolCallRequest.id := by
  refine ⟨by simp [process_tool_calls], ?_⟩
  unfold process_tool_calls
  rw [List.map_map]
  refine List.map_congr_left ?_
  intro tc _
  exact dispatchToolCall_id tools tc

/-- C2: an unregistered tool name yields a failure result whose content
contains that name; a capability that raises during invoke is caught and
converted into a failure result; and the dispatcher always continues with
the remaining requests (the request list is processed element by element,
so no tool-level failure ever propagates past it). -/
theorem dispatch_isolates_failures (tools : List ToolCapability)
    (tc : ToolCallRequest) (rest : List ToolCallRequest) :
    (toolMapGet tools tc.name = none →
      (dispatchToolCall tools tc).ok = false ∧
      ∃ a b, (dispatchToolCall tools tc).content = a ++ tc.name ++ b) ∧
    (∀ func e, toolMapGet tools tc.name = some func →
      func.invoke tc.args = Except.error e →
      (dispatchToolCall tools tc).ok = false ∧
      (dispatchToolCall tools tc).content = toolErrorMessage tc.name e) ∧
    process_tool_calls (tc :: rest) tools
      = dispatchToolCall tools tc :: process_tool_calls rest tools := by
  refine ⟨?_, ?_, by simp [process_tool_calls]⟩
  · intro h
    refine ⟨by simp [dispatchToolCall, h], "Неизвестный инструмент: ", "", ?_⟩
    simp [dispatchToolCall, h, unknownToolMessage]
  · intro func e hfind hinv
    constructor <;> simp [dispatchToolCall, hfind, hinv]

/-- Witness for C2 at concrete inputs: the unregistered name "frobnicate"
against an empty registry, and a registered capability "boom" whose invoke
raises. -/
theorem dispatch_isolates_failures_witness :
    ((dispatchToolCall [] ⟨"c1", "frobnicate", []⟩).ok = false ∧
      ∃ a b, (dispatchToolCall [] ⟨"c1", "frobnicate", []⟩).content
        = a ++ "frobnicate" ++ b) ∧
    ((dispatchToolCall [⟨"boom", fun _ => Except.error "fail"⟩]
        ⟨"c2", "boom", []⟩).ok = false ∧
      (dispatchToolCall [⟨"boom", fun _ => Except.error "fail"⟩]
        ⟨"c2", "boom", []⟩).content = toolErrorMessage "boom" "fail") :=
  ⟨(dispatch_isolates_failures [] ⟨"c1", "frobnicate", []⟩ []).1 rfl,
   (dispatch_isolates_failures [⟨"boom", fun _ => Except.error "fail"⟩]
      ⟨"c2", "boom", []⟩ []).2.1 ⟨"boom", fun _ => Except.error "fail"⟩ "fail"
      (by simp [toolMapGet]) rfl⟩

/-- Helper for C3 and C4: one unfolding of the loop at a provider failure.
The `break` at `ai.py` line 530 returns with the history and token count
exactly as they were when the failing call was issued, and with that single
call as the only provider call made from this point of the turn on. -/
theorem turnLoop_failure (provider : List Message → ProviderOutcome)
    (tools : List ToolCapability) (fuel : Nat) (history : List Message)
    (tokens : Nat) (e : String)
    (h : provider history = ProviderOutcome.failure e) :
    turnLoop provider tools (fuel + 1) history tokens
      = ⟨history, tokens, TurnStatus.aborted, 1⟩ := by
  unfold turnLoop
  rw [h]

/-- C3: a provider failure ends the turn immediately: the loop state at the
failing iteration is returned unchanged with exactly one (the failed)
provider call made from that point, so the call is never retried within
the turn; and a failure on iteration 1 of a fresh conversation leaves the
history holding only the user message (length 1). -/
theorem provider_failure_aborts_turn (provider : List Message → ProviderOutcome)
    (tools : List ToolCapability) (fuel : Nat) (history : List Message)
    (tokens : Nat) (user_input : String) (e : String)
    (h : provider history = ProviderOutcome.failure e)
    (h1 : provider [Message.user user_input] = ProviderOutcome.failure e) :
    turnLoop provider tools (fuel + 1) history tokens
      = ⟨history, tokens, TurnStatus.aborted, 1⟩ ∧
    runTurn provider tools [] user_input tokens
      = ⟨[Message.user user_input], tokens, TurnStatus.aborted, 1⟩ ∧
    (runTurn provider tools [] user_input tokens).history.length = 1 := by
  have h2 : runTurn provider tools [] user_input tokens
      = ⟨[Message.user user_input], tokens, TurnStatus.aborted, 1⟩ := by
    unfold runTurn max_iterations
    rw [List.nil_append]
    exact turnLoop_failure provider tools 49 [Message.user user_input] tokens e h1
  exact ⟨turnLoop_failure provider tools fuel history tokens e h, h2, by rw [h2]; rfl⟩

/-- Witness for C3: a provider that always fails with a network error, on a
fresh history and on the turn for the user input "hi". -/
theorem provider_failure_aborts_turn_witness :
    (turnLoop (fun _ => ProviderOutcome.failure "network error") [] 1 [] 0
      = ⟨[], 0, TurnStatus.aborted, 1⟩) ∧
    (runTurn (fun _ => ProviderOutcome.failure "network error") [] [] "hi" 0
      = ⟨[Message.user "hi"], 0, TurnStatus.aborted, 1⟩) ∧
    (runTurn (fun _ => ProviderOutcome.failure "network error") [] [] "hi" 0).history.length
      = 1 :=
  provider_failure_aborts_turn (fun _ => ProviderOutcome.failure "network error")
    [] 0 [] 0 "hi" "network error" rfl rfl

/-- Helper for C4: the loop performs at most `fuel` provider calls and only
ever appends to the history it was entered with. -/
theorem turnLoop_calls_le (provider : List Message → ProviderOutcome)
    (tools : List ToolCapability) :
    ∀ (fuel : Nat) (history : List Message) (tokens : Nat),
      (turnLoop provider tools fuel history tokens).providerCalls ≤ fuel ∧
      ∃ t, (turnLoop provider tools fuel history tokens).history = history ++ t := by
  intro fuel
  induction fuel with
  | zero =>
    intro history tokens
    exact ⟨Nat.le_refl 0, [], by simp [turnLoop]⟩
  | succ n ih =>
    intro history tokens
    unfold turnLoop
    rcases hp : provider history with e | response
    · exact ⟨Nat.succ_le_succ (Nat.zero_le n), [], by simp⟩
    · by_cases hempty : response.tool_calls.isEmpty
      · simp only [hempty, if_true]
        exact ⟨Nat.succ_le_succ (Nat.zero_le n), [Message.assistant response], rfl⟩
      · simp only [hempty, if_false]
        obtain ⟨hle, t, ht⟩ := ih
          ((history ++ [Message.assistant response])
            ++ (process_tool_calls response.tool_calls tools).map toolResultToMessage)
          (match response.usage_metadata with
            | some u => usagePrompt u
            | none => 0)
        refine ⟨Nat.succ_le_succ hle,
          [Message.assistant response]
            ++ (process_tool_calls response.tool_calls tools).map toolResultToMessage
            ++ t, ?_⟩
        simpa using ht

/-- C4: within one turn the loop performs at most `max_iterations = 50`
provider calls, and the final history extends the history holding every
previously appended message, starting from the user message — nothing is
rolled back when the cap is reached. -/
theorem turn_respects_iteration_cap (provider : List Message → ProviderOutcome)
    (tools : List ToolCapability) (history : List Message)
    (user_input : String) (tokens : Nat) :
    max_iterations = 50 ∧
    (runTurn provider tools history user_input tokens).providerCalls ≤ max_iterations ∧
    ∃ t, (runTurn provider tools history user_input tokens).history
      = history ++ [Message.user user_input] ++ t := by
  obtain ⟨hle, t, ht⟩ := turnLoop_calls_le provider tools max_iterations
    (history ++ [Message.user user_input]) tokens
  exact ⟨rfl, hle, t, ht⟩

/-- C5: when the compression provider call fails, `compress_chat_history`
returns a history structurally equal to its input — compression never
destroys existing context on failure. -/
theorem compress_failure_preserves_history (history : List Message)
    (provider : List Message → Except String String) (e : String)
    (h : provider (history ++ [Message.user compression_prompt_text])
      = Except.error e) :
    compress_chat_history history provider = history := by
  unfold compress_chat_history
  rw [h]

/-- Witness for C5: a two-message history and a provider that always raises
a rate-limit error. -/
theorem compress_failure_preserves_history_witness :
    compress_chat_history [Message.user "a", Message.user "b"]
      (fun _ => Except.error "rate limit")
      = [Message.user "a", Message.user "b"] :=
  compress_failure_preserves_history [Message.user "a", Message.user "b"]
    (fun _ => Except.error "rate limit") "rate limit" rfl

/-- C6: on a history with more than one message, a successful provider call
with summary text `s` makes `compress_chat_history` return a history of
length exactly 1 whose single element is a user-role message whose content
is the fixed header followed by `s`. -/
theorem compress_success_single_summary (history : List Message)
    (provider : List Message → Except String String) (s : String)
    (_hlen : 1 < history.length)
    (hs : provider (history ++ [Message.user compression_prompt_text])
      = Except.ok s) :
    compress_chat_history history provider
      = [Message.user ("This is a summary of the previous conversation:\n" ++ s)] ∧
    (compress_chat_history history provider).length = 1 := by
  have h : compress_chat_history history provider
      = [Message.user ("This is a summary of the previous conversation:\n" ++ s)] := by
    unfold compress_chat_history
    rw [hs]
    rfl
  exact ⟨h, by rw [h]; rfl⟩

/-- Witness for C6: a two-message history and a provider that returns the
summary "sum". -/
theorem compress_success_single_summary_witness :
    (1 < ([Message.user "a", Message.user "b"] : List Message).length) ∧
    (compress_chat_history [Message.user "a", Message.user "b"]
        (fun _ => Except.ok "sum")
      = [Message.user ("This is a summary of the previous conversation:\n" ++ "sum")] ∧
     (compress_chat_history [Message.user "a", Message.user "b"]
        (fun _ => Except.ok "sum")).length = 1) :=
  ⟨by decide,
   compress_success_single_summary [Message.user "a", Message.user "b"]
     (fun _ => Except.ok "sum") "sum" (by decide) rfl⟩

/-- Counterexample for C7: `compress_chat_history` itself performs no length
check, so on a single-message history with a successful provider call it
replaces the history by the summary message instead of returning its input
unchanged — the claimed no-op fails on the bare compress function. -/
theorem compress_short_history_not_noop :
    (([Message.user "hi"] : List Message).length ≤ 1) ∧
    compress_chat_history [Message.user "hi"] (fun _ => Except.ok "s")
      ≠ [Message.user "hi"] := by
  constructor
  · decide
  · intro h
    simp [compress_chat_history, summaryMessage] at h

/-- C7 (amended): the length guard lives in the `/compress` command handler,
not in `compress_chat_history`: with a history of at most one message the
handler never calls the compressor and returns history and token count
untouched (it only prints a notice). -/
theorem compress_command_short_noop (history : List Message) (tokens : Nat)
    (provider : List Message → Except String String)
    (h : history.length ≤ 1) :
    handleCompressCommand history tokens provider = (history, tokens) := by
  unfold handleCompressCommand
  rw [if_neg]
  omega

/-- Witness for C7 (amended): a single-message history is left untouched by
the `/compress` handler. -/
theorem compress_command_short_noop_witness :
    handleCompressCommand [Message.user "hi"] 7 (fun _ => Except.ok "s")
      = ([Message.user "hi"], 7) :=
  compress_command_short_noop [Message.user "hi"] 7 (fun _ => Except.ok "s")
    (by decide)

/-- C10: after `/compress` on a history with more than one message the
tracked prompt-token count is reset to zero unconditionally — in
particular also when the compression provider call fails and the history
is returned unchanged. -/
theorem compress_command_resets_tokens (history : List Message) (tokens : Nat)
    (provider : List Message → Except String String)
    (h : 1 < history.length) :
    (handleCompressCommand history tokens provider).2 = 0 ∧
    (∀ e, provider (history ++ [Message.user compression_prompt_text])
        = Except.error e →
      (handleCompressCommand history tokens provider).1 = history) := by
  constructor
  · unfold handleCompressCommand
    rw [if_pos h]
  · intro e he
    unfold handleCompressCommand
    rw [if_pos h]
    exact compress_failure_preserves_history history provider e he

/-- Witness for C10: a two-message history with 7 tracked prompt tokens and
a failing compression provider: the token count is reset to 0 although the
history comes back unchanged. -/
theorem compress_command_resets_tokens_witness :
    (handleCompressCommand [Message.user "a", Message.user "b"] 7
        (fun _ => Except.error "boom")).2 = 0 ∧
    (handleCompressCommand [Message.user "a", Message.user "b"] 7
        (fun _ => Except.error "boom")).1
      = [Message.user "a", Message.user "b"] :=
  ⟨(compress_command_resets_tokens [Message.user "a", Message.user "b"] 7
      (fun _ => Except.error "boom") (by decide)).1,
   (compress_command_resets_tokens [Message.user "a", Message.user "b"] 7
      (fun _ => Except.error "boom") (by decide)).2 "boom" rfl⟩

/-- Counterexample for C8: a usage dictionary that reports
`prompt_tokens = 5` and explicitly reports `total_tokens = 0`. The provider
did not omit a total, yet the code re-derives `total = prompt + completion
= 5`, while the claimed behavior keeps the reported total `0`. -/
theorem recordUsage_derives_on_reported_zero :
    (recordUsage ⟨some 5, none, none, none, none, some 0⟩ = (5, 0, 5)) ∧
    (recordUsageClaimC8 ⟨some 5, none, none, none, none, some 0⟩ = (5, 0, 0)) ∧
    recordUsage ⟨some 5, none, none, none, none, some 0⟩
      ≠ recordUsageClaimC8 ⟨some 5, none, none, none, none, some 0⟩ := by
  refine ⟨rfl, rfl, ?_⟩
  decide

/-- Helper for C8 (amended): peeling one element off a truthy-or chain. -/
theorem firstTruthy_cons (a : Option Nat) (rest : List (Option Nat)) :
    firstTruthy (a :: rest) = orNat (a.getD 0) (firstTruthy rest) := by
  rcases a with _ | n <;> simp [firstTruthy, orNat]

/-- Helper for C8 (amended): a trailing default of `0` is absorbed. -/
theorem orNat_zero (a : Nat) : orNat a 0 = a := by
  unfold orNat
  split <;> omega

/-- C8 (amended): the recorded triple takes `prompt` and `completion` as the
first truthy value among their provider-specific fallback keys (so each
defaults to 0 when every key is missing), and derives
`total = prompt + completion` whenever the reported total is missing or
zero, keeping a nonzero reported total as-is. -/
theorem recordUsage_eq_amended (u : Usage) :
    recordUsage u = recordUsageAmended u := by
  have hp : firstTruthy [u.prompt_tokens, u.input_tokens] = usagePrompt u := by
    rw [firstTruthy_cons, firstTruthy_cons,
      show firstTruthy [] = 0 from rfl, orNat_zero]
    rfl
  have hc : firstTruthy [u.completion_tokens, u.output_tokens, u.generated_tokens]
      = usageCompletion u := by
    rw [firstTruthy_cons, firstTruthy_cons, firstTruthy_cons,
      show firstTruthy [] = 0 from rfl, orNat_zero]
    rfl
  unfold recordUsage recordUsageAmended
  rw [hp, hc]
  simp only [Prod.mk.injEq]
  refine ⟨trivial, trivial, ?_⟩
  unfold usageTotal
  split_ifs <;> omega

/-- C9: over exact arithmetic the context-fullness percentage equals
`min(100, 100 * x / max_context)`, is monotone in the prompt-token count
`x`, always lies in `[0, 100]`, and is clamped to exactly `100` once `x`
exceeds `max_context`. -/
theorem contextPercent_spec (x y mc : Nat) (hmc : 0 < mc) (hxy : x ≤ y) :
    contextPercent x mc = min 100 (100 * (x : ℚ) / (mc : ℚ)) ∧
    contextPercent x mc ≤ contextPercent y mc ∧
    0 ≤ contextPercent x mc ∧
    contextPercent x mc ≤ 100 ∧
    (mc < x → contextPercent x mc = 100) := by
  have hmcq : (0 : ℚ) < (mc : ℚ) := by exact_mod_cast hmc
  refine ⟨?_, ?_, ?_, ?_, ?_⟩
  · unfold contextPercent
    congr 1
    ring
  · unfold contextPercent
    have hxyq : (x : ℚ) ≤ (y : ℚ) := by exact_mod_cast hxy
    gcongr
  · exact le_min (by norm_num) (by positivity)
  · exact min_le_left 100 _
  · intro hlt
    have hx1 : (1 : ℚ) ≤ (x : ℚ) / (mc : ℚ) := by
      rw [le_div_iff₀ hmcq, one_mul]
      exact_mod_cast Nat.le_of_lt hlt
    have h100 : (100 : ℚ) ≤ (x : ℚ) / (mc : ℚ) * 100 := by nlinarith
    unfold contextPercent
    exact min_eq_left h100

/-- Witness for C9 at `x = 1`, `y = 2`, `max_context = 128000`. -/
theorem contextPercent_spec_witness :
    0 < 128000 ∧ 1 ≤ 2 ∧
    (contextPercent 1 128000 = min 100 (100 * ((1 : Nat) : ℚ) / ((128000 : Nat) : ℚ)) ∧
     contextPercent 1 128000 ≤ contextPercent 2 128000 ∧
     0 ≤ contextPercent 1 128000 ∧
     contextPercent 1 128000 ≤ 100 ∧
     (128000 < 1 → contextPercent 1 128000 = 100)) :=
  ⟨by decide, by decide, contextPercent_spec 1 2 128000 (by decide) (by decide)⟩

end Agent
